import Mathlib

/-!
A shallow embedding of the Arduino theremin firmware
(`arduino-source/theremin/theremin.ino`) and proofs about its
measurement-and-synthesis engine.

The firmware runs two interrupt service routines:

* `ISR(TIMER0_COMPA_vect)` — the synthesis tick.  Once per gate window
  (when `timer0_interrupt_counter` reaches `frequency_gate_count`) it reads
  the extended edge count, maps it to an audio frequency, recomputes the
  DDS tuning word and resets the counting state; on every tick it advances
  the 32-bit phase accumulator by the tuning word and writes the sine table
  sample selected by the accumulator's top 8 bits to `OCR2A`.
* `ISR(TIMER1_OVF_vect)` — runs on each 16-bit hardware-counter overflow and
  adds `0xFFFF` to `timer1_overflow_counter`.

Machine integers are embedded as `ℕ` with explicit reduction modulo the
relevant power of two at each operation that can overflow.  On the ATmega328
target `unsigned int` is 16 bits, `unsigned long` 32 bits and
`unsigned long long` 64 bits.
-/

set_option maxRecDepth 4000

namespace Theremin

/-- Range of a 16-bit value (`unsigned int`, `TCNT1`): `2^16`. -/
def UINT16_RANGE : ℕ := 65536

/-- Range of a 32-bit value (`unsigned long`): `2^32`. -/
def UINT32_RANGE : ℕ := 4294967296

/-- Range of a 64-bit value (`unsigned long long`): `2^64`. -/
def UINT64_RANGE : ℕ := 18446744073709551616

/-- `DDS_MODULUS = 0x100000000LL`: size of the 32-bit phase accumulator. -/
def DDS_MODULUS : ℕ := 4294967296

/-- `DDS_REFERENCE_CLOCK`: declared `const unsigned int DDS_REFERENCE_CLOCK =
80000` in the source.  `unsigned int` is 16 bits on the ATmega328 this file
targets, so the stored constant is `80000 mod 2^16 = 14464`, not 80000. -/
def DDS_REFERENCE_CLOCK : ℕ := 80000 % UINT16_RANGE

/-- `DDS_FINAL_SHIFT = 24`: bits dropped from the phase accumulator when
indexing the waveform table. -/
def DDS_FINAL_SHIFT : ℕ := 24

/-- `GATE_SAMPLE_FREQUENCY = 10`: gate windows per second. -/
def GATE_SAMPLE_FREQUENCY : ℕ := 10

/-- `AUDIO_FREQUENCY_SCALE = 10`: right-shift applied to the measured RF
frequency to reach the audio range. -/
def AUDIO_FREQUENCY_SCALE : ℕ := 10

/-- `frequency_gate_count = DDS_REFERENCE_CLOCK / GATE_SAMPLE_FREQUENCY`:
synthesis ticks per gate window.  With the 16-bit truncated constant this is
`14464 / 10 = 1446`. -/
def frequency_gate_count : ℕ := DDS_REFERENCE_CLOCK / GATE_SAMPLE_FREQUENCY

/-- The 256-entry sine table `sinewave[]` from the source, one full period,
8-bit amplitude samples. -/
def sinewave : List ℕ := [
  127, 130, 133, 136, 139, 143, 146, 149, 152, 155, 158, 161, 164, 167, 170, 173,
  176, 178, 181, 184, 187, 190, 192, 195, 198, 200, 203, 205, 208, 210, 212, 215,
  217, 219, 221, 223, 225, 227, 229, 231, 233, 234, 236, 238, 239, 240, 242, 243,
  244, 245, 247, 248, 249, 249, 250, 251, 252, 252, 253, 253, 253, 254, 254, 254,
  254, 254, 254, 254, 253, 253, 253, 252, 252, 251, 250, 249, 249, 248, 247, 245,
  244, 243, 242, 240, 239, 238, 236, 234, 233, 231, 229, 227, 225, 223, 221, 219,
  217, 215, 212, 210, 208, 205, 203, 200, 198, 195, 192, 190, 187, 184, 181, 178,
  176, 173, 170, 167, 164, 161, 158, 155, 152, 149, 146, 143, 139, 136, 133, 130,
  127, 124, 121, 118, 115, 111, 108, 105, 102,  99,  96,  93,  90,  87,  84,  81,
   78,  76,  73,  70,  67,  64,  62,  59,  56,  54,  51,  49,  46,  44,  42,  39,
   37,  35,  33,  31,  29,  27,  25,  23,  21,  20,  18,  16,  15,  14,  12,  11,
   10,   9,   7,   6,   5,   5,   4,   3,   2,   2,   1,   1,   1,   0,   0,   0,
    0,   0,   0,   0,   1,   1,   1,   2,   2,   3,   4,   5,   5,   6,   7,   9,
   10,  11,  12,  14,  15,  16,  18,  20,  21,  23,  25,  27,  29,  31,  33,  35,
   37,  39,  42,  44,  46,  49,  51,  54,  56,  59,  62,  64,  67,  70,  73,  76,
   78,  81,  84,  87,  90,  93,  96,  99, 102, 105, 108, 111, 115, 118, 121, 124]

/-- The engine state: the `static` locals of `ISR(TIMER0_COMPA_vect)`, the
global `timer1_overflow_counter`, the hardware edge counter `TCNT1` and the
PWM output register `OCR2A`. -/
structure ThereminState where
  dds_phase_accumulator : ℕ
  dds_tuning_word : ℕ
  timer0_interrupt_counter : ℕ
  output_frequency : ℕ
  tcnt1 : ℕ
  timer1_overflow_counter : ℕ
  ocr2a : ℕ
deriving DecidableEq, Repr

/-- Line 203: `frequency_input = (TCNT1 + timer1_overflow_counter) *
GATE_SAMPLE_FREQUENCY`, computed in 32-bit `unsigned long` arithmetic. -/
def finalize_frequency_input (tcnt1 timer1_overflow_counter : ℕ) : ℕ :=
  ((tcnt1 + timer1_overflow_counter) * GATE_SAMPLE_FREQUENCY) % UINT32_RANGE

/-- Line 204: `output_frequency = frequency_input >> AUDIO_FREQUENCY_SCALE`,
truncated to the 16-bit `unsigned int` static `output_frequency`. -/
def map_output_frequency (frequency_input : ℕ) : ℕ :=
  (frequency_input >>> AUDIO_FREQUENCY_SCALE) % UINT16_RANGE

/-- Line 212: `dds_phase_accumulator += dds_tuning_word` in 32-bit
`unsigned long` arithmetic (wrapping addition). -/
def dds_advance (dds_tuning_word dds_phase_accumulator : ℕ) : ℕ :=
  (dds_phase_accumulator + dds_tuning_word) % UINT32_RANGE

/-- `ISR(TIMER0_COMPA_vect)`, lines 191-216.  On a gate tick
(`timer0_interrupt_counter == frequency_gate_count`) it finalizes the window:
computes `frequency_input`, `output_frequency`, the tuning word
`(output_frequency * DDS_MODULUS) / DDS_REFERENCE_CLOCK` (the 64-bit product
truncated back to a 32-bit `unsigned long`), and zeroes
`timer0_interrupt_counter`, `timer1_overflow_counter` and `TCNT1`.  On every
tick it then advances the phase accumulator, writes
`sinewave[dds_phase_accumulator >> DDS_FINAL_SHIFT]` to `OCR2A`, and
increments `timer0_interrupt_counter`. -/
def timer0_compa_isr (s : ThereminState) : ThereminState :=
  let s1 : ThereminState :=
    if s.timer0_interrupt_counter = frequency_gate_count then
      let frequency_input : ℕ :=
        finalize_frequency_input s.tcnt1 s.timer1_overflow_counter
      let new_output_frequency : ℕ := map_output_frequency frequency_input
      let dds_modulus_temp : ℕ :=
        (new_output_frequency * DDS_MODULUS) % UINT64_RANGE
      { s with
        output_frequency := new_output_frequency
        dds_tuning_word := (dds_modulus_temp / DDS_REFERENCE_CLOCK) % UINT32_RANGE
        timer0_interrupt_counter := 0
        timer1_overflow_counter := 0
        tcnt1 := 0 }
    else s
  let acc : ℕ := dds_advance s1.dds_tuning_word s1.dds_phase_accumulator
  { s1 with
    dds_phase_accumulator := acc
    ocr2a := sinewave.getD (acc >>> DDS_FINAL_SHIFT) 0
    timer0_interrupt_counter := (s1.timer0_interrupt_counter + 1) % UINT16_RANGE }

/-- `ISR(TIMER1_OVF_vect)`, lines 223-226: on each hardware-counter overflow,
`timer1_overflow_counter += 0xFFFFL` (32-bit arithmetic).  Note the increment
is `0xFFFF = 65535`, not the counter range `2^16 = 65536`. -/
def timer1_ovf_isr (s : ThereminState) : ThereminState :=
  { s with
    timer1_overflow_counter :=
      (s.timer1_overflow_counter + 65535) % UINT32_RANGE }

/-- The state at power-on: every static and global starts at zero and the
hardware counters are reset in `setup()`. -/
def initial_state : ThereminState :=
  { dds_phase_accumulator := 0, dds_tuning_word := 0,
    timer0_interrupt_counter := 0, output_frequency := 0,
    tcnt1 := 0, timer1_overflow_counter := 0, ocr2a := 0 }

/-- The table index used by the synthesis tick on state `s`: the updated
phase accumulator shifted right by `DDS_FINAL_SHIFT`. -/
def dds_table_index (s : ThereminState) : ℕ :=
  (timer0_compa_isr s).dds_phase_accumulator >>> DDS_FINAL_SHIFT

/-- Modelled from the spec: a mapping into a configured `[audio_min,
audio_max]` band — a monotone base map saturated at the band edges.  The
source contains no such clamp; this definition renders the spec's words so
they can be compared with `map_output_frequency`. -/
def clamp_map (audio_min audio_max : ℕ) (lin : ℕ → ℕ) (f : ℕ) : ℕ :=
  min audio_max (max audio_min (lin f))

/-- A state in which the hardware counter wrapped exactly once during the
elapsed window (so `ISR(TIMER1_OVF_vect)` ran once from reset), ended the
window back at raw value 0, and the gate tick is due. -/
def wrap_once_state : ThereminState :=
  { timer1_ovf_isr initial_state with
    timer0_interrupt_counter := frequency_gate_count }

/-- A concrete state at a gate tick (the sub-counter has reached the
threshold), used to instantiate the per-window theorems. -/
def gate_state_ex : ThereminState :=
  { dds_phase_accumulator := 7, dds_tuning_word := 3,
    timer0_interrupt_counter := frequency_gate_count, output_frequency := 100,
    tcnt1 := 41100, timer1_overflow_counter := 0, ocr2a := 0 }

/-- A concrete state strictly inside a gate window (sub-counter below the
threshold), used to instantiate the frame theorems. -/
def idle_state_ex : ThereminState :=
  { dds_phase_accumulator := 7, dds_tuning_word := 3,
    timer0_interrupt_counter := 5, output_frequency := 100,
    tcnt1 := 123, timer1_overflow_counter := 0, ocr2a := 0 }

/-- A gate-tick state reached after the hardware counter wrapped 23 times
during the elapsed window (`ISR(TIMER1_OVF_vect)` ran 23 times from reset)
and ended back at raw value 0: the finalized mapped output frequency is
14719, which exceeds the truncated 16-bit divisor 14464 of the tuning-word
division. -/
def wrap_23_state : ThereminState :=
  { timer1_ovf_isr^[23] initial_state with
    timer0_interrupt_counter := frequency_gate_count }

/-- A gate-tick state whose window saw no edges (`TCNT1 = 0`, no overflow)
while the previous output frequency was 100. -/
def gate_zero_state : ThereminState :=
  { dds_phase_accumulator := 0, dds_tuning_word := 0,
    timer0_interrupt_counter := frequency_gate_count, output_frequency := 100,
    tcnt1 := 0, timer1_overflow_counter := 0, ocr2a := 0 }

lemma timer1_ovf_counter (s : ThereminState) :
    (timer1_ovf_isr s).timer1_overflow_counter
      = (s.timer1_overflow_counter + 65535) % UINT32_RANGE := rfl

/-- Starting from reset, `k` hardware-counter overflows leave
`timer1_overflow_counter = k * 65535` (mod `2^32`): the extension adds
`0xFFFF`, not the counter range `2^16`, per wrap. -/
lemma timer1_ovf_iterate (k : ℕ) :
    (timer1_ovf_isr^[k] initial_state).timer1_overflow_counter
      = (k * 65535) % UINT32_RANGE := by
  induction k with
  | zero => rfl
  | succ n ih =>
    rw [Function.iterate_succ_apply', timer1_ovf_counter, ih, Nat.mod_add_mod]
    have h : n * 65535 + 65535 = (n + 1) * 65535 := by ring
    rw [h]

/-- C10: the waveform table has exactly 256 entries, satisfies the
half-period complement symmetry `sinewave[(i + 128) % 256] = 254 -
sinewave[i]`, and every entry lies in `[0, 254]`. -/
theorem C10_sinewave_symmetry :
    sinewave.length = 256
  ∧ (∀ i, i < 256 → sinewave.getD ((i + 128) % 256) 0 = 254 - sinewave.getD i 0)
  ∧ (∀ x ∈ sinewave, x ≤ 254) := by decide

/-- C1: the code does NOT report `k * 65536 + v` edges.  With exactly one
counter wrap (`ISR(TIMER1_OVF_vect)` runs once from reset) and final raw
value `v = 0`, the overflow counter holds `0xFFFF = 65535`, the finalized
`frequency_input` is `655350` and the mapped output is `639`, whereas the
claimed formula `(1 * 65536 + 0) * GATE_SAMPLE_FREQUENCY` gives `655360`
(mapped output `640`). -/
theorem C1_overflow_undercount :
    (timer1_ovf_isr initial_state).timer1_overflow_counter = 65535
  ∧ wrap_once_state.tcnt1 = 0
  ∧ finalize_frequency_input wrap_once_state.tcnt1
      wrap_once_state.timer1_overflow_counter = 655350
  ∧ (timer0_compa_isr wrap_once_state).output_frequency = 639
  ∧ (1 * UINT16_RANGE + 0) * GATE_SAMPLE_FREQUENCY = 655360
  ∧ map_output_frequency ((1 * UINT16_RANGE + 0) * GATE_SAMPLE_FREQUENCY) = 640
  ∧ (655350 : ℕ) ≠ 655360 := by decide

/-- C2 counterexample: `map_output_frequency` is not of the form "monotone
base map clamped to a configured `[audio_min, audio_max]` band" for any
choice of band and base map: the map is not monotone (`58593` at raw input
`60000000` but `0` at the larger raw input `67108870`, because the 16-bit
store wraps), while every clamped monotone map is monotone. -/
theorem C2_not_clamped :
    ¬ ∃ (audio_min audio_max : ℕ) (lin : ℕ → ℕ), Monotone lin ∧
        ∀ f, map_output_frequency f = clamp_map audio_min audio_max lin f := by
  rintro ⟨amin, amax, lin, hmono, h⟩
  have h1 := h 60000000
  have h2 := h 67108870
  have e1 : map_output_frequency 60000000 = 58593 := by decide
  have e2 : map_output_frequency 67108870 = 0 := by decide
  have hle : clamp_map amin amax lin 60000000
      ≤ clamp_map amin amax lin 67108870 := by
    unfold clamp_map
    exact min_le_min le_rfl (max_le_max le_rfl (hmono (by norm_num)))
  rw [← h1, ← h2, e1, e2] at hle
  exact absurd hle (by norm_num)

/-- C2 amended: no clamping to a configured band is performed.  The mapped
audio frequency is `(raw >> 10) mod 2^16`; the only band it is guaranteed to
lie in is `[0, 65535]` (16-bit truncation), and the truncation makes the map
non-monotone rather than saturating. -/
theorem C2_mapped_band :
    (∀ f, map_output_frequency f < UINT16_RANGE)
  ∧ map_output_frequency 60000000 = 58593
  ∧ map_output_frequency 67108870 = 0 :=
  ⟨fun _ => Nat.mod_lt _ (by decide), by decide, by decide⟩

/-- C3 counterexample: there is no fixed `α ∈ (0,1)` for which the
per-window output is the convex combination `new * (1 - α) + previous * α`:
at a gate tick with new mapped value `0` and previous output `100`, the code
produces `0`, which forces `α = 0`. -/
theorem C3_no_smoothing :
    ¬ ∃ α : ℚ, 0 < α ∧ α < 1 ∧
        ∀ s : ThereminState, s.timer0_interrupt_counter = frequency_gate_count →
          ((timer0_compa_isr s).output_frequency : ℚ)
            = (map_output_frequency (finalize_frequency_input s.tcnt1
                s.timer1_overflow_counter) : ℚ) * (1 - α)
              + (s.output_frequency : ℚ) * α := by
  rintro ⟨α, hα0, hα1, h⟩
  have h1 := h gate_zero_state rfl
  have e1 : (timer0_compa_isr gate_zero_state).output_frequency = 0 := by decide
  have e2 : map_output_frequency (finalize_frequency_input gate_zero_state.tcnt1
      gate_zero_state.timer1_overflow_counter) = 0 := by decide
  have e3 : gate_zero_state.output_frequency = 100 := rfl
  rw [e1, e2, e3] at h1
  push_cast at h1
  linarith

/-- C3 amended: no smoothing filter is applied (the filter coefficient is
effectively `α = 0`): on each finalized gate window the output frequency
equals the newly mapped value, independent of the previous output. -/
theorem C3_output_is_new_value (s : ThereminState)
    (h : s.timer0_interrupt_counter = frequency_gate_count) :
    (timer0_compa_isr s).output_frequency
      = map_output_frequency (finalize_frequency_input s.tcnt1
          s.timer1_overflow_counter) := by
  simp [timer0_compa_isr, h]

theorem C3_output_is_new_value_witness :
    gate_state_ex.timer0_interrupt_counter = frequency_gate_count
  ∧ (timer0_compa_isr gate_state_ex).output_frequency
      = map_output_frequency (finalize_frequency_input gate_state_ex.tcnt1
          gate_state_ex.timer1_overflow_counter) :=
  ⟨rfl, C3_output_is_new_value gate_state_ex rfl⟩

lemma isr_acc (s : ThereminState) :
    (timer0_compa_isr s).dds_phase_accumulator
      = (s.dds_phase_accumulator + (timer0_compa_isr s).dds_tuning_word)
          % UINT32_RANGE := by
  by_cases h : s.timer0_interrupt_counter = frequency_gate_count <;>
    simp [timer0_compa_isr, dds_advance, h]

lemma isr_ocr2a (s : ThereminState) :
    (timer0_compa_isr s).ocr2a
      = sinewave.getD
          ((timer0_compa_isr s).dds_phase_accumulator >>> DDS_FINAL_SHIFT) 0 := by
  by_cases h : s.timer0_interrupt_counter = frequency_gate_count <;>
    simp [timer0_compa_isr, dds_advance, h]

/-- C4: on every synthesis tick the phase accumulator becomes the old value
plus the (current) tuning word, reduced modulo `2^32`, and the sample
written to the output compare register is the table entry selected by the
accumulator's top 8 bits (shift by `32 - 8`), with no interpolation. -/
theorem C4_synthesis_tick (s : ThereminState) :
    (timer0_compa_isr s).dds_phase_accumulator
      = (s.dds_phase_accumulator + (timer0_compa_isr s).dds_tuning_word)
          % UINT32_RANGE
  ∧ (timer0_compa_isr s).ocr2a
      = sinewave.getD
          ((timer0_compa_isr s).dds_phase_accumulator >>> (32 - 8)) 0 :=
  ⟨isr_acc s, (isr_ocr2a s).trans (by norm_num [DDS_FINAL_SHIFT])⟩

lemma map_output_frequency_lt (f : ℕ) : map_output_frequency f < UINT16_RANGE :=
  Nat.mod_lt _ (by decide)

lemma isr_gate_output (s : ThereminState)
    (h : s.timer0_interrupt_counter = frequency_gate_count) :
    (timer0_compa_isr s).output_frequency
      = map_output_frequency
          (finalize_frequency_input s.tcnt1 s.timer1_overflow_counter) := by
  simp [timer0_compa_isr, h]

lemma isr_gate_tuning (s : ThereminState)
    (h : s.timer0_interrupt_counter = frequency_gate_count) :
    (timer0_compa_isr s).dds_tuning_word
      = (map_output_frequency
            (finalize_frequency_input s.tcnt1 s.timer1_overflow_counter)
          * DDS_MODULUS % UINT64_RANGE) / DDS_REFERENCE_CLOCK % UINT32_RANGE := by
  simp [timer0_compa_isr, h]

/-- For any `output_frequency` below `2^16` the 64-bit product does not
truncate, so the tuning word the gate tick stores is
`output_frequency * DDS_MODULUS / DDS_REFERENCE_CLOCK` reduced modulo `2^32`
by the 32-bit `unsigned long` assignment. -/
lemma tuning_word_mod (out : ℕ) (h : out < UINT16_RANGE) :
    (out * DDS_MODULUS % UINT64_RANGE) / DDS_REFERENCE_CLOCK % UINT32_RANGE
      = out * DDS_MODULUS / DDS_REFERENCE_CLOCK % UINT32_RANGE := by
  have hout : out ≤ 65535 := by
    unfold UINT16_RANGE at h
    omega
  have h1 : out * DDS_MODULUS < UINT64_RANGE :=
    lt_of_le_of_lt (Nat.mul_le_mul_right DDS_MODULUS hout) (by decide)
  rw [Nat.mod_eq_of_lt h1]

/-- C5 counterexample: the tuning word does NOT equal
`desired_frequency * 2^32 / 80000`, nor even the unreduced
`desired_frequency * 2^32 / 14464`.  At a gate tick whose window wrapped the
counter 23 times (mapped output 14719), the program stores
`75720178 = (14719 * 2^32 / 14464) mod 2^32`: the 16-bit constant holds
14464, not 80000, and the 32-bit store truncates the quotient. -/
theorem C5_tuning_word_truncates :
    (timer0_compa_isr wrap_23_state).output_frequency = 14719
  ∧ (timer0_compa_isr wrap_23_state).dds_tuning_word = 75720178
  ∧ (timer0_compa_isr wrap_23_state).output_frequency * DDS_MODULUS / 80000
      = 790220295
  ∧ (timer0_compa_isr wrap_23_state).output_frequency * DDS_MODULUS
      / DDS_REFERENCE_CLOCK = 4370687474
  ∧ (timer0_compa_isr wrap_23_state).dds_tuning_word
      ≠ (timer0_compa_isr wrap_23_state).output_frequency * DDS_MODULUS / 80000
  ∧ (timer0_compa_isr wrap_23_state).dds_tuning_word
      ≠ (timer0_compa_isr wrap_23_state).output_frequency * DDS_MODULUS
          / DDS_REFERENCE_CLOCK := by decide

/-- C5 amended: at every gate tick (the only moment the tuning word is
recomputed) the new tuning word equals
`desired_frequency * 2^32 / DDS_REFERENCE_CLOCK` reduced modulo `2^32`,
where the 16-bit constant `DDS_REFERENCE_CLOCK` actually holds
`80000 mod 2^16 = 14464`; the reduction is the 32-bit `unsigned long` store,
which truncates whenever `desired_frequency ≥ 14464`. -/
theorem C5_tuning_word_reduced (s : ThereminState)
    (h : s.timer0_interrupt_counter = frequency_gate_count) :
    (timer0_compa_isr s).dds_tuning_word
      = (timer0_compa_isr s).output_frequency * DDS_MODULUS
          / DDS_REFERENCE_CLOCK % UINT32_RANGE := by
  rw [isr_gate_tuning s h, isr_gate_output s h,
    tuning_word_mod _ (map_output_frequency_lt _)]

theorem C5_tuning_word_reduced_witness :
    gate_state_ex.timer0_interrupt_counter = frequency_gate_count
  ∧ (timer0_compa_isr gate_state_ex).dds_tuning_word
      = (timer0_compa_isr gate_state_ex).output_frequency * DDS_MODULUS
          / DDS_REFERENCE_CLOCK % UINT32_RANGE :=
  ⟨rfl, C5_tuning_word_reduced gate_state_ex rfl⟩

/-- C6: the tuning word is untouched by every tick on which the sub-counter
has not reached the gate threshold, and on a gate tick (the only tick that
can change it) the phase accumulator is still advanced by the tuning word
and never reset — phase continuity is preserved. -/
theorem C6_tuning_word_frame (s t : ThereminState)
    (hs : s.timer0_interrupt_counter ≠ frequency_gate_count)
    (_ht : t.timer0_interrupt_counter = frequency_gate_count) :
    (timer0_compa_isr s).dds_tuning_word = s.dds_tuning_word
  ∧ (timer0_compa_isr t).dds_phase_accumulator
      = (t.dds_phase_accumulator + (timer0_compa_isr t).dds_tuning_word)
          % UINT32_RANGE :=
  ⟨by simp [timer0_compa_isr, hs], isr_acc t⟩

theorem C6_tuning_word_frame_witness :
    idle_state_ex.timer0_interrupt_counter ≠ frequency_gate_count
  ∧ gate_state_ex.timer0_interrupt_counter = frequency_gate_count
  ∧ ((timer0_compa_isr idle_state_ex).dds_tuning_word
        = idle_state_ex.dds_tuning_word
     ∧ (timer0_compa_isr gate_state_ex).dds_phase_accumulator
        = (gate_state_ex.dds_phase_accumulator
            + (timer0_compa_isr gate_state_ex).dds_tuning_word) % UINT32_RANGE) :=
  ⟨by decide, rfl,
    C6_tuning_word_frame idle_state_ex gate_state_ex (by decide) rfl⟩

/-- C7: the gate tick that closes a window zeroes the hardware counter
`TCNT1` and the overflow extension in the same step, and restarts the gate
tick counter from zero — the closing tick itself is then counted, so the
counter reads 1 when the handler returns. -/
theorem C7_window_reset (s : ThereminState)
    (h : s.timer0_interrupt_counter = frequency_gate_count) :
    (timer0_compa_isr s).tcnt1 = 0
  ∧ (timer0_compa_isr s).timer1_overflow_counter = 0
  ∧ (timer0_compa_isr s).timer0_interrupt_counter = 1 := by
  refine ⟨?_, ?_, ?_⟩ <;> norm_num [timer0_compa_isr, h, UINT16_RANGE]

theorem C7_window_reset_witness :
    gate_state_ex.timer0_interrupt_counter = frequency_gate_count
  ∧ ((timer0_compa_isr gate_state_ex).tcnt1 = 0
     ∧ (timer0_compa_isr gate_state_ex).timer1_overflow_counter = 0
     ∧ (timer0_compa_isr gate_state_ex).timer0_interrupt_counter = 1) :=
  ⟨rfl, C7_window_reset gate_state_ex rfl⟩

lemma dds_advance_iterate (T acc : ℕ) (h : acc < UINT32_RANGE) (m : ℕ) :
    (dds_advance T)^[m] acc = (acc + m * T) % UINT32_RANGE := by
  induction m with
  | zero => simp [Nat.mod_eq_of_lt h]
  | succ n ih =>
    rw [Function.iterate_succ_apply', ih]
    show ((acc + n * T) % UINT32_RANGE + T) % UINT32_RANGE = _
    rw [Nat.mod_add_mod]
    have e : acc + n * T + T = acc + (n + 1) * T := by ring
    rw [e]

/-- C8: for a fixed tuning word `T`, repeatedly advancing the 32-bit phase
accumulator returns it to its start after exactly `2^32 / gcd(T, 2^32)`
ticks, and after no smaller positive number of ticks, so the table index
sequence is strictly periodic with that period. -/
theorem C8_accumulator_period (T acc : ℕ) (hacc : acc < UINT32_RANGE) :
    (dds_advance T)^[UINT32_RANGE / Nat.gcd T UINT32_RANGE] acc = acc
  ∧ ∀ m, 0 < m → m < UINT32_RANGE / Nat.gcd T UINT32_RANGE →
      (dds_advance T)^[m] acc ≠ acc := by
  have hn : 0 < UINT32_RANGE := by decide
  set g := Nat.gcd T UINT32_RANGE with hgdef
  have hg : 0 < g := Nat.gcd_pos_of_pos_right T hn
  have hcop : Nat.Coprime (UINT32_RANGE / g) (T / g) :=
    (Nat.coprime_div_gcd_div_gcd hg).symm
  obtain ⟨t2, ht2⟩ : g ∣ T := Nat.gcd_dvd_left T UINT32_RANGE
  obtain ⟨n2, hn2⟩ : g ∣ UINT32_RANGE := Nat.gcd_dvd_right T UINT32_RANGE
  have hTg : T / g = t2 := by rw [ht2, Nat.mul_div_cancel_left _ hg]
  have hNg : UINT32_RANGE / g = n2 := by rw [hn2, Nat.mul_div_cancel_left _ hg]
  have key : UINT32_RANGE / g * T = UINT32_RANGE * t2 := by
    rw [hNg, ht2, hn2]
    ring
  constructor
  · rw [dds_advance_iterate T acc hacc, key, Nat.add_mul_mod_self_left,
      Nat.mod_eq_of_lt hacc]
  · intro m hm0 hmlt heq
    rw [dds_advance_iterate T acc hacc] at heq
    have hmod : Nat.ModEq UINT32_RANGE acc (acc + m * T) := by
      show acc % UINT32_RANGE = (acc + m * T) % UINT32_RANGE
      rw [heq, Nat.mod_eq_of_lt hacc]
    have hdvd : UINT32_RANGE ∣ m * T := by
      have h0 := (Nat.modEq_iff_dvd' (Nat.le_add_right acc (m * T))).mp hmod
      rwa [Nat.add_sub_cancel_left] at h0
    have hdvd2 : n2 ∣ m * t2 := by
      have hmT : m * T = g * (m * t2) := by
        rw [ht2]
        ring
      have hgn : g * n2 ∣ g * (m * t2) := by
        rw [← hn2, ← hmT]
        exact hdvd
      exact (Nat.mul_dvd_mul_iff_left hg).mp hgn
    rw [hNg, hTg] at hcop
    have hple : n2 ∣ m := hcop.dvd_of_dvd_mul_right hdvd2
    have hle := Nat.le_of_dvd hm0 hple
    rw [hNg] at hmlt
    omega

theorem C8_accumulator_period_witness :
    (5 : ℕ) < UINT32_RANGE
  ∧ (dds_advance 2147483648)^[UINT32_RANGE / Nat.gcd 2147483648 UINT32_RANGE] 5
      = 5 :=
  ⟨by decide, (C8_accumulator_period 2147483648 5 (by decide)).1⟩

lemma isr_acc_lt (s : ThereminState) :
    (timer0_compa_isr s).dds_phase_accumulator < UINT32_RANGE := by
  rw [isr_acc s]
  exact Nat.mod_lt _ (by decide)

lemma list_get?_of_getD (l : List ℕ) (n : ℕ) (h : n < l.length) :
    l.get? n = some (l.getD n 0) := by
  rw [List.get?_eq_get h, List.getD_eq_getElem?_getD, List.getElem?_eq_getElem h]
  rfl

/-- C9: the synthesis tick cannot fail: the table index it uses is always
strictly below the table size 256, so the checked (`Option`-valued) lookup
always succeeds and returns exactly the sample the tick writes to `OCR2A`;
all remaining operations are total arithmetic on `ℕ`. -/
theorem C9_lookup_total (s : ThereminState) :
    dds_table_index s < sinewave.length
  ∧ sinewave.get? (dds_table_index s) = some ((timer0_compa_isr s).ocr2a) := by
  have hlen : sinewave.length = 256 := by decide
  have hidx : dds_table_index s < 256 := by
    unfold dds_table_index
    rw [Nat.shiftRight_eq_div_pow]
    apply Nat.div_lt_of_lt_mul
    calc (timer0_compa_isr s).dds_phase_accumulator
        < UINT32_RANGE := isr_acc_lt s
      _ = 2 ^ DDS_FINAL_SHIFT * 256 := by decide
  refine ⟨by rw [hlen]; exact hidx, ?_⟩
  rw [list_get?_of_getD sinewave _ (by rw [hlen]; exact hidx), isr_ocr2a s]
  rfl

end Theremin
